import Mathlib

set_option maxRecDepth 4096

/-!
Verification of the ISignReal signing service (src/app.py) against its
specification.  The Python request handlers are shallowly embedded as pure
Lean functions: request data and the outcomes of the fallible external
operations (file saves, archive extraction, the zsign child process,
filesystem copies, directory removal) are passed in explicitly, and each
handler returns its HTTP response together with the ordered trace of
filesystem and logging effects it performs.

String primitives of Python are modelled on the character-list
representation of Lean strings (String.data), so that every definition
evaluates inside the kernel.
-/

namespace ISignReal

/-- Python str.endswith: a literal suffix test. -/
def pyEndswith (s post : String) : Bool := post.data.isSuffixOf s.data

/-- Python str.startswith: a literal prefix test. -/
def pyStartswith (s pat : String) : Bool := pat.data.isPrefixOf s.data

/-- Python truthiness of a werkzeug FileStorage: bool(self.filename).
none models a missing form field. -/
def fileTruthy : Option String → Bool
  | none => false
  | some fn => fn != ""

/-- Python truthiness of an optional string (request.form.get result). -/
def strTruthy : Option String → Bool
  | none => false
  | some s => s != ""

/-- Rendering of a possibly-None Python value inside an f-string. -/
def pyStr : Option String → String
  | none => "None"
  | some s => s

/-- The filename attribute of an uploaded file, empty when absent. -/
def filenameOf : Option String → String
  | none => ""
  | some fn => fn

/-- Python or-chain step on an optional string: falsy values fall through. -/
def pyOrStr (o : Option String) (alt : String) : String :=
  match o with
  | none => alt
  | some s => if s == "" then alt else s

/-! ## Download handler (app.py, download_file, lines 151-173) -/

/-- The final HTTP outcome of GET /download/<filename>: either a served file
with its content-disposition and mimetype, or an error status. -/
inductive DownloadResponse where
  | serve (asAttachment : Bool) (mimetype : Option String) (downloadName : String)
  | httpError (code : Nat)
  deriving DecidableEq

/-- Body of the try block of download_file.  The artifact store is the list
of filenames existing in the flat permanent directory.  abort(n) is modelled
as Except.error n. -/
def download_body (store : List String) (filename : String) : Except Nat DownloadResponse :=
  if !(store.contains filename) then Except.error 404
  else if pyEndswith filename ".plist" then
    Except.ok (DownloadResponse.serve false (some "text/xml") filename)
  else if pyEndswith filename ".ipa" then
    Except.ok (DownloadResponse.serve true none filename)
  else Except.error 400

/-- download_file: the blanket except Exception clause catches every
exception raised in the try block, including the HTTPExceptions raised by
abort(404) and abort(400), and answers abort(500) instead. -/
def download_file (store : List String) (filename : String) : DownloadResponse :=
  match download_body store filename with
  | Except.ok r => r
  | Except.error _ => DownloadResponse.httpError 500

/-- Modelled from the spec: the download dispatch of section 4.6 as the
claim states it - existence decides 404, then suffix dispatch serves plist
inline as XML, ipa as attachment, anything else 400. -/
def download_spec (store : List String) (filename : String) : DownloadResponse :=
  if store.contains filename then
    if pyEndswith filename ".plist" then DownloadResponse.serve false (some "text/xml") filename
    else if pyEndswith filename ".ipa" then DownloadResponse.serve true none filename
    else DownloadResponse.httpError 400
  else DownloadResponse.httpError 404

/-! ## Descriptor generator (app.py, generate_manifest, lines 65-97) -/

/-- generate_manifest: the f-string template, translated as the
concatenation of its literal parts with the three interpolated values. -/
def generate_manifest (bundle_id app_name ipa_url : String) : String :=
  "<?xml version=\"1.0\" encoding=\"UTF-8\"?>\n<!DOCTYPE plist PUBLIC \"-//Apple//DTD PLIST 1.0//EN\" \"http://www.apple.com/DTDs/PropertyList-1.0.dtd\">\n<plist version=\"1.0\">\n<dict>\n  <key>items</key>\n  <array>\n    <dict>\n      <key>assets</key>\n      <array>\n        <dict>\n          <key>kind</key>\n          <string>software-package</string>\n          <key>url</key>\n          <string>" ++ ipa_url ++
  "</string>\n        </dict>\n      </array>\n      <key>metadata</key>\n      <dict>\n        <key>bundle-identifier</key>\n        <string>" ++ bundle_id ++
  "</string>\n        <key>bundle-version</key>\n        <string>1.0</string>\n        <key>kind</key>\n        <string>software</string>\n        <key>title</key>\n        <string>" ++ app_name ++
  "</string>\n      </dict>\n    </dict>\n  </array>\n</dict>\n</plist>"

/-- One asset of a manifest item, per the schema stated in the spec. -/
structure ManifestAsset where
  kind : String
  url : String

/-- The metadata block of a manifest item, per the schema stated in the spec. -/
structure ManifestMetadata where
  bundleIdentifier : String
  bundleVersion : String
  kind : String
  title : String

/-- One installable item: a list of assets plus one metadata block. -/
structure ManifestItem where
  assets : List ManifestAsset
  metadata : ManifestMetadata

/-- Modelled from the spec: the item list the descriptor generator must
produce, in the words of section 4.3 - a single installable item containing
one asset of kind software-package referencing downloadURL, and metadata
with bundle-identifier, a constant bundle-version value of 1.0, kind
software, and title = displayName. -/
def specManifestItems (bundleIdentifier displayName downloadURL : String) : List ManifestItem :=
  [{ assets := [{ kind := "software-package", url := downloadURL }],
     metadata := { bundleIdentifier := bundleIdentifier, bundleVersion := "1.0",
                   kind := "software", title := displayName } }]

/-- Renders one asset dictionary at the indentation used by the template. -/
def renderAsset (a : ManifestAsset) : String :=
  "        <dict>\n          <key>kind</key>\n          <string>" ++ a.kind ++
  "</string>\n          <key>url</key>\n          <string>" ++ a.url ++
  "</string>\n        </dict>"

/-- Renders the metadata dictionary of an item. -/
def renderMetadata (m : ManifestMetadata) : String :=
  "      <dict>\n        <key>bundle-identifier</key>\n        <string>" ++ m.bundleIdentifier ++
  "</string>\n        <key>bundle-version</key>\n        <string>" ++ m.bundleVersion ++
  "</string>\n        <key>kind</key>\n        <string>" ++ m.kind ++
  "</string>\n        <key>title</key>\n        <string>" ++ m.title ++
  "</string>\n      </dict>"

/-- Renders one installable item. -/
def renderItem (it : ManifestItem) : String :=
  "    <dict>\n      <key>assets</key>\n      <array>\n" ++
  String.intercalate "\n" (it.assets.map renderAsset) ++
  "\n      </array>\n      <key>metadata</key>\n" ++ renderMetadata it.metadata ++
  "\n    </dict>"

/-- Renders a whole manifest document from its item list. -/
def renderManifestDoc (items : List ManifestItem) : String :=
  "<?xml version=\"1.0\" encoding=\"UTF-8\"?>\n<!DOCTYPE plist PUBLIC \"-//Apple//DTD PLIST 1.0//EN\" \"http://www.apple.com/DTDs/PropertyList-1.0.dtd\">\n<plist version=\"1.0\">\n<dict>\n  <key>items</key>\n  <array>\n" ++
  String.intercalate "\n" (items.map renderItem) ++
  "\n  </array>\n</dict>\n</plist>"

/-! ## Metadata extractor (app.py, extract_bundle_and_name, lines 44-63) -/

/-- The three metadata keys read from Info.plist.  A field is none when the
key is absent. -/
structure PlistData where
  CFBundleIdentifier : Option String
  CFBundleDisplayName : Option String
  CFBundleName : Option String
  deriving DecidableEq

/-- Observable shape of an uploaded archive: whether zipfile can open it,
whether the top-level Payload directory exists, the entries listed under
Payload, and for each entry the parsed Info.plist when that file exists and
is well formed (none models a missing or malformed Info.plist, and also an
entry that is not a directory). -/
structure Archive where
  openable : Bool
  hasPayload : Bool
  payloadEntries : List String
  plistOf : String → Option PlistData

/-- The display-name fallback chain of line 62:
CFBundleDisplayName or CFBundleName or UnknownApp. -/
def displayNameOf (p : PlistData) : String :=
  pyOrStr p.CFBundleDisplayName (pyOrStr p.CFBundleName "UnknownApp")

/-- extract_bundle_and_name: returns (CFBundleIdentifier, display name), or
the message of the exception raised. -/
def extract_bundle_and_name (a : Archive) : Except String (Option String × String) :=
  if !a.openable then Except.error "File is not a zip file"
  else if !a.hasPayload then Except.error "No such file or directory: Payload"
  else
    match a.payloadEntries.filter (fun d => pyEndswith d ".app") with
    | [] => Except.error "No .app folder found in Payload"
    | app0 :: _ =>
      match a.plistOf app0 with
      | none => Except.error "Info.plist missing or malformed"
      | some plist => Except.ok (plist.CFBundleIdentifier, displayNameOf plist)

/-- Boolean error test for Except values. -/
def exceptIsError {ε α : Type} : Except ε α → Bool
  | Except.error _ => true
  | Except.ok _ => false

/-! ## Signing invoker command line and its log line (app.py, lines 241-250) -/

def ZSIGN_PATH : String := "./zsign"

/-- The argument vector of line 241. -/
def zsignCmd (p12_path password provision_path output_path ipa_path : String) : List String :=
  [ZSIGN_PATH, "-k", p12_path, "-p", password, "-m", provision_path, "-o", output_path, ipa_path]

/-- The debug log line of line 250: joins cmd with its last element sliced
off, then appends the password-hidden marker and the last element. -/
def zsignLogMessage (cmd : List String) : String :=
  "Running zsign command: " ++ String.intercalate " " cmd.dropLast ++
  " [password hidden] " ++ (cmd.getLast?.getD "")

/-! ## The HTTPS rewrite of the base URL (app.py, lines 277-280) -/

/-- Occurrence test: does pat occur as a contiguous run inside the list. -/
def occursIn (pat : List Char) : List Char → Bool
  | [] => pat.isPrefixOf []
  | c :: rest => pat.isPrefixOf (c :: rest) || occursIn pat rest

/-- Python str.replace on character lists: scans left to right, replacing
every non-overlapping occurrence of the pattern (p0 :: ps) by rep.  The
fuel argument is instantiated with the length of the scanned list, which
bounds the number of steps. -/
def pyReplaceCharsAux (p0 : Char) (ps rep : List Char) : Nat → List Char → List Char
  | 0, l => l
  | _ + 1, [] => []
  | fuel + 1, c :: rest =>
    if (p0 :: ps).isPrefixOf (c :: rest) then
      rep ++ pyReplaceCharsAux p0 ps rep fuel (rest.drop ps.length)
    else
      c :: pyReplaceCharsAux p0 ps rep fuel rest

/-- Python str.replace with a non-empty pattern, entry point. -/
def pyReplaceChars (p0 : Char) (ps rep l : List Char) : List Char :=
  pyReplaceCharsAux p0 ps rep l.length l

/-- Lines 277-280: request.url_root, with http replaced by https whenever
the inferred base URL starts with the plain scheme. -/
def httpsify (base : String) : String :=
  if pyStartswith base "http://" then
    String.mk (pyReplaceChars 'h' "ttp://".data "https://".data base.data)
  else base

/-! ## The signing endpoint (app.py, sign_ipa, lines 175-331) -/

/-- A POST /sign request: the uploaded files as (field name, filename)
pairs in multidict order, the password form field, and request.url_root. -/
structure SignRequest where
  files : List (String × String)
  password : Option String
  url_root : String

/-- request.files.get: first value stored under the field name. -/
def getFile (req : SignRequest) (field : String) : Option String :=
  (req.files.find? (fun kv => kv.fst == field)).map (fun kv => kv.snd)

/-- Observable side effects of one /sign request, in program order. -/
inductive Effect where
  | mkdtemp (path : String)
  | saveUpload (path : String)
  | logZsign (message : String)
  | publishCopy (filename : String)
  | publishWrite (filename : String) (content : String)
  | rmtree (path : String) (ok : Bool)
  | logCleanupFailure
  deriving DecidableEq

/-- The JSON response of /sign: 400 with an error body, 500 with an error
body plus details, or the 200 success body. -/
inductive SignResponse where
  | badRequest (error : String)
  | serverError (error : String) (details : String)
  | success (itms_services_url manifest_url ipa_url : String)
      (app_name : String) (bundle_id : Option String) (size_mb : Nat)
  deriving DecidableEq

/-- Outcomes of the external operations performed by one /sign request:
the temp directory name chosen by mkdtemp, whether the three uploads save,
the content of the uploaded archive, the zsign child process result
(captured combined output on exit 0, exit code and captured output
otherwise), the two time.time readings, the computed size in MB (float
rounding abstracted to a passed-through value), whether the copy to the
permanent directory succeeds, and whether rmtree succeeds. -/
structure Env where
  tmpdir : String
  saveOk : Bool
  saveErr : String
  archive : Archive
  zsign : Except (Int × String) String
  time1 : Nat
  time2 : Nat
  sizeMB : Nat
  copyOk : Bool
  copyErr : String
  rmtreeOk : Bool

/-- The validation chain of lines 182-209, returning the first error
message, or none when every check passes. -/
def validate (req : SignRequest) : Option String :=
  let ipa := getFile req "ipa"
  let p12 := getFile req "p12"
  let provision := getFile req "provision"
  let password := req.password
  if req.files.isEmpty then some "No files uploaded"
  else if !(fileTruthy ipa && fileTruthy p12 && fileTruthy provision && strTruthy password) then
    some "Missing one or more required fields"
  else if !(fileTruthy ipa) then some "No IPA file selected"
  else if !(fileTruthy p12) then some "No P12 certificate selected"
  else if !(fileTruthy provision) then some "No provisioning profile selected"
  else if !(pyEndswith (filenameOf ipa) ".ipa") then some "IPA file must have .ipa extension"
  else if !(pyEndswith (filenameOf p12) ".p12") then some "Certificate must have .p12 extension"
  else if !(pyEndswith (filenameOf provision) ".mobileprovision") then
    some "Provisioning profile must have .mobileprovision extension"
  else none

/-- The finally block of lines 313-320: one rmtree attempt, a warning
logged when it fails. -/
def finallyCleanup (env : Env) : List Effect :=
  if env.rmtreeOk then [Effect.rmtree env.tmpdir true]
  else [Effect.rmtree env.tmpdir false, Effect.logCleanupFailure]

/-- sign_ipa: the full request handler.  Returns the response and the
effect trace.  The only unexpected exception the model can raise is a
failure of the shutil.copy2 publish step, which escapes the inner
try/finally (running its cleanup) and is then caught by the outer handler,
which attempts cleanup again when the directory still exists. -/
def sign_ipa (req : SignRequest) (env : Env) : SignResponse × List Effect :=
  match validate req with
  | some msg => (SignResponse.badRequest msg, [])
  | none =>
    let pw := req.password.getD ""
    let td := env.tmpdir
    let ipa_path := td ++ "/input.ipa"
    let p12_path := td ++ "/cert.p12"
    let provision_path := td ++ "/profile.mobileprovision"
    let output_path := td ++ "/signed.ipa"
    if !env.saveOk then
      (SignResponse.serverError "Failed to save uploaded files" env.saveErr,
        Effect.mkdtemp td :: finallyCleanup env)
    else
      let savedEffects := [Effect.mkdtemp td, Effect.saveUpload ipa_path,
        Effect.saveUpload p12_path, Effect.saveUpload provision_path]
      match extract_bundle_and_name env.archive with
      | Except.error e =>
        (SignResponse.serverError "Failed to extract bundle id and app name" e,
          savedEffects ++ finallyCleanup env)
      | Except.ok (bundle_id, app_name) =>
        let logEff := Effect.logZsign (zsignLogMessage
          (zsignCmd p12_path pw provision_path output_path ipa_path))
        match env.zsign with
        | Except.error ec =>
          (SignResponse.serverError "Signing failed" ec.snd,
            savedEffects ++ [logEff] ++ finallyCleanup env)
        | Except.ok _ =>
          let signed_filename := "signed_" ++ pyStr bundle_id ++ "_" ++ toString env.time1 ++ ".ipa"
          if !env.copyOk then
            (SignResponse.serverError "Unexpected error occurred" env.copyErr,
              savedEffects ++ [logEff] ++ finallyCleanup env ++
                (if env.rmtreeOk then [] else finallyCleanup env))
          else
            let manifest_filename :=
              "manifest_" ++ pyStr bundle_id ++ "_" ++ toString env.time2 ++ ".plist"
            let base_url := httpsify req.url_root
            let direct_ipa_url := base_url ++ "download/" ++ signed_filename
            let local_manifest_url := base_url ++ "download/" ++ manifest_filename
            let manifest_content := generate_manifest (pyStr bundle_id) app_name direct_ipa_url
            let itms_services_url :=
              "itms-services://?action=download-manifest&url=" ++ local_manifest_url
            (SignResponse.success itms_services_url local_manifest_url direct_ipa_url
                app_name bundle_id env.sizeMB,
              savedEffects ++ [logEff, Effect.publishCopy signed_filename,
                Effect.publishWrite manifest_filename manifest_content] ++ finallyCleanup env)

/-- The filenames a trace writes into the permanent artifact directory. -/
def publishedArtifacts (trace : List Effect) : List String :=
  trace.filterMap fun e =>
    match e with
    | Effect.publishCopy f => some f
    | Effect.publishWrite f _ => some f
    | _ => none

/-- Env with the rmtree outcome replaced. -/
def envWithRmtree (e : Env) (b : Bool) : Env := { e with rmtreeOk := b }

/-! ## Concrete fixtures used by the witness theorems -/

def demoPlist : PlistData :=
  { CFBundleIdentifier := some "com.example.demo",
    CFBundleDisplayName := some "Demo", CFBundleName := none }

def demoArchive : Archive :=
  { openable := true, hasPayload := true, payloadEntries := ["Demo.app"],
    plistOf := fun d => if d = "Demo.app" then some demoPlist else none }

def twoAppArchive : Archive :=
  { openable := true, hasPayload := true, payloadEntries := ["Alpha.app", "Beta.app"],
    plistOf := fun d => if d = "Alpha.app" then some demoPlist else none }

def noAppArchive : Archive :=
  { openable := true, hasPayload := true, payloadEntries := ["README.txt"],
    plistOf := fun _ => none }

def reqValid : SignRequest :=
  { files := [("ipa", "app.ipa"), ("p12", "cert.p12"), ("provision", "profile.mobileprovision")],
    password := some "hunter2", url_root := "http://host.example/" }

def reqMissingPassword : SignRequest :=
  { files := [("ipa", "app.ipa"), ("p12", "cert.p12"), ("provision", "profile.mobileprovision")],
    password := none, url_root := "http://host.example/" }

def reqEmptyPassword : SignRequest :=
  { files := [("ipa", "app.ipa"), ("p12", "cert.p12"), ("provision", "profile.mobileprovision")],
    password := some "", url_root := "http://host.example/" }

def envOk : Env :=
  { tmpdir := "/tmp/ios_signer_w", saveOk := true, saveErr := "",
    archive := demoArchive, zsign := Except.ok "signed ok",
    time1 := 1700000000, time2 := 1700000000, sizeMB := 12,
    copyOk := true, copyErr := "", rmtreeOk := true }

def envZsignFail : Env := { envOk with zsign := Except.error (1, "zsign error output") }

def envRmtreeFail : Env := { envOk with rmtreeOk := false }

def envExtractFail : Env := { envOk with archive := noAppArchive }

def envTwoApps : Env := { envOk with archive := twoAppArchive }

end ISignReal

namespace ISignReal

/-! ## Helper lemmas -/

theorem fileTruthy_some (o : Option String) (h : fileTruthy o = true) :
    ∃ fn, o = some fn ∧ fn ≠ "" := by
  cases o with
  | none => simp [fileTruthy] at h
  | some fn => exact ⟨fn, rfl, by simpa [fileTruthy] using h⟩

theorem strTruthy_some (o : Option String) (h : strTruthy o = true) :
    ∃ s, o = some s ∧ s ≠ "" := by
  cases o with
  | none => simp [strTruthy] at h
  | some s => exact ⟨s, rfl, by simpa [strTruthy] using h⟩

theorem validate_none_sound (req : SignRequest) (h : validate req = none) :
    (∃ i, getFile req "ipa" = some i ∧ pyEndswith i ".ipa" = true) ∧
    (∃ p, getFile req "p12" = some p ∧ pyEndswith p ".p12" = true) ∧
    (∃ pr, getFile req "provision" = some pr ∧ pyEndswith pr ".mobileprovision" = true) ∧
    (∃ pw, req.password = some pw ∧ pw ≠ "") := by
  simp only [validate] at h
  split at h
  next => simp at h
  next h0 =>
    split at h
    next => simp at h
    next h1 =>
      split at h
      next => simp at h
      next h2 =>
        split at h
        next => simp at h
        next h3 =>
          split at h
          next => simp at h
          next h4 =>
            split at h
            next => simp at h
            next h5 =>
              split at h
              next => simp at h
              next h6 =>
                split at h
                next => simp at h
                next h7 =>
                  simp at h1 h5 h6 h7
                  obtain ⟨⟨⟨hti, htp⟩, htpr⟩, htpw⟩ := h1
                  obtain ⟨i, hi, hine⟩ := fileTruthy_some _ hti
                  obtain ⟨p, hp, hpne⟩ := fileTruthy_some _ htp
                  obtain ⟨pr, hpr, hprne⟩ := fileTruthy_some _ htpr
                  obtain ⟨pw, hpw, hpwne⟩ := strTruthy_some _ htpw
                  rw [hi] at h5
                  rw [hp] at h6
                  rw [hpr] at h7
                  simp only [filenameOf] at h5 h6 h7
                  exact ⟨⟨i, hi, h5⟩, ⟨p, hp, h6⟩, ⟨pr, hpr, h7⟩, ⟨pw, hpw, hpwne⟩⟩

/-! ## Claim theorems -/

/-- C1: the claim says the logged zsign invocation has the password
redacted.  The code slices only the final element (the archive path) off
the command vector before joining, so the -p argument and the submitted
password itself appear verbatim in the log line; only the archive path is
replaced by the password-hidden marker.  The first conjunct shows the
password is always a substring of the log line, the second evaluates the
log line at a concrete request. -/
theorem zsign_log_contains_password :
    (∀ p12_path pw provision_path output_path ipa_path : String,
      ∃ before after,
        zsignLogMessage (zsignCmd p12_path pw provision_path output_path ipa_path) =
          before ++ pw ++ after) ∧
    zsignLogMessage (zsignCmd "/tmp/ios_signer_w/cert.p12" "hunter2"
        "/tmp/ios_signer_w/profile.mobileprovision" "/tmp/ios_signer_w/signed.ipa"
        "/tmp/ios_signer_w/input.ipa") =
      "Running zsign command: ./zsign -k /tmp/ios_signer_w/cert.p12 -p hunter2 -m /tmp/ios_signer_w/profile.mobileprovision -o /tmp/ios_signer_w/signed.ipa [password hidden] /tmp/ios_signer_w/input.ipa" := by
  constructor
  · intro p12_path pw provision_path output_path ipa_path
    refine ⟨"Running zsign command: ./zsign -k " ++ p12_path ++ " -p ",
      " -m " ++ provision_path ++ " -o " ++ output_path ++ " [password hidden] " ++ ipa_path, ?_⟩
    apply String.ext
    simp [zsignLogMessage, zsignCmd, ZSIGN_PATH, String.intercalate, String.intercalate.go,
      String.data_append, List.append_assoc]
  · decide

/-- C2: the claim says unsupported suffixes give 400, missing files give
404, and existing artifacts are served with the right disposition.  In the
code both abort(404) and abort(400) raise exceptions that the blanket
except-clause of the handler itself catches and converts to abort(500), so
every error case answers 500; only the two serving cases behave as
claimed.  download_spec is the dispatch the claim describes. -/
theorem download_dispatch_evaluations :
    download_file [] "missing.ipa" = DownloadResponse.httpError 500 ∧
    download_spec [] "missing.ipa" = DownloadResponse.httpError 404 ∧
    download_file ["notes.txt"] "notes.txt" = DownloadResponse.httpError 500 ∧
    download_spec ["notes.txt"] "notes.txt" = DownloadResponse.httpError 400 ∧
    download_file ["manifest_demo_1.plist"] "manifest_demo_1.plist" =
      DownloadResponse.serve false (some "text/xml") "manifest_demo_1.plist" ∧
    download_file ["signed_demo_1.ipa"] "signed_demo_1.ipa" =
      DownloadResponse.serve true none "signed_demo_1.ipa" := by
  decide

/-- C7: the descriptor generator is a pure function whose output is exactly
the rendering of a single-item manifest: one asset of kind
software-package with url = downloadURL, and metadata carrying the bundle
identifier, the constant version 1.0, kind software and title =
displayName. -/
theorem generate_manifest_follows_schema (bundleIdentifier displayName downloadURL : String) :
    generate_manifest bundleIdentifier displayName downloadURL =
      renderManifestDoc (specManifestItems bundleIdentifier displayName downloadURL) ∧
    (specManifestItems bundleIdentifier displayName downloadURL).length = 1 ∧
    (specManifestItems bundleIdentifier displayName downloadURL).map
      (fun it => it.assets.length) = [1] := by
  refine ⟨?_, rfl, rfl⟩
  apply String.ext
  simp [generate_manifest, renderManifestDoc, specManifestItems, renderItem, renderAsset,
    renderMetadata, String.intercalate, String.intercalate.go,
    String.data_append, List.append_assoc]

/-- C10: with more than one entry ending in .app under Payload, the
extractor does not fail on account of the multiplicity: its result is
determined by the first such entry in listing order alone, succeeding
whenever that entry carries a readable Info.plist. -/
theorem extractor_first_app (a : Archive) (app1 app2 : String) (rest : List String)
    (ho : a.openable = true) (hpay : a.hasPayload = true)
    (happ : a.payloadEntries.filter (fun d => pyEndswith d ".app") = app1 :: app2 :: rest) :
    extract_bundle_and_name a =
      (match a.plistOf app1 with
       | none => Except.error "Info.plist missing or malformed"
       | some plist => Except.ok (plist.CFBundleIdentifier, displayNameOf plist)) ∧
    (∀ plist, a.plistOf app1 = some plist →
      extract_bundle_and_name a = Except.ok (plist.CFBundleIdentifier, displayNameOf plist)) := by
  have h1 : extract_bundle_and_name a =
      (match a.plistOf app1 with
       | none => Except.error "Info.plist missing or malformed"
       | some plist => Except.ok (plist.CFBundleIdentifier, displayNameOf plist)) := by
    simp [extract_bundle_and_name, ho, hpay, happ]
  refine ⟨h1, ?_⟩
  intro plist hpl
  rw [h1, hpl]

/-- C10 witness: an archive holding Alpha.app and Beta.app is read from
Alpha.app and succeeds. -/
theorem extractor_first_app_witness :
    extract_bundle_and_name twoAppArchive = Except.ok (some "com.example.demo", "Demo") :=
  (extractor_first_app twoAppArchive "Alpha.app" "Beta.app" [] rfl rfl (by decide)).2
    demoPlist rfl

/-- C5: the extractor fails exactly when the archive is unopenable, the
Payload directory is absent, no entry under it ends in .app, or the first
such entry has no readable Info.plist; and whenever it fails, the handler
answers 500 with the extraction-failure message and publishes nothing. -/
theorem extraction_failure_conditions (req : SignRequest) (env : Env) :
    (exceptIsError (extract_bundle_and_name env.archive) = true ↔
      env.archive.openable = false ∨ env.archive.hasPayload = false ∨
      env.archive.payloadEntries.filter (fun d => pyEndswith d ".app") = [] ∨
      ∃ app0 rest,
        env.archive.payloadEntries.filter (fun d => pyEndswith d ".app") = app0 :: rest ∧
        env.archive.plistOf app0 = none) ∧
    (validate req = none → env.saveOk = true →
      ∀ e, extract_bundle_and_name env.archive = Except.error e →
        (sign_ipa req env).fst =
          SignResponse.serverError "Failed to extract bundle id and app name" e ∧
        publishedArtifacts (sign_ipa req env).snd = []) := by
  constructor
  · generalize env.archive = a
    cases ho : a.openable with
    | false => simp [extract_bundle_and_name, exceptIsError, ho]
    | true =>
      cases hpay : a.hasPayload with
      | false => simp [extract_bundle_and_name, exceptIsError, ho, hpay]
      | true =>
        cases happ : a.payloadEntries.filter (fun d => pyEndswith d ".app") with
        | nil => simp [extract_bundle_and_name, exceptIsError, ho, hpay, happ]
        | cons app0 rest =>
          cases hpl : a.plistOf app0 with
          | none => simp [extract_bundle_and_name, exceptIsError, ho, hpay, happ, hpl]
          | some plist => simp [extract_bundle_and_name, exceptIsError, ho, hpay, happ, hpl]
  · intro hv hs e hx
    constructor
    · simp [sign_ipa, hv, hs, hx]
    · cases hr : env.rmtreeOk <;>
        simp [sign_ipa, hv, hs, hx, publishedArtifacts, finallyCleanup, hr]

/-- C5 witness: at a concrete archive whose Payload holds no .app entry,
the failure condition holds and the handler answers 500 without publishing. -/
theorem extraction_failure_conditions_witness :
    exceptIsError (extract_bundle_and_name envExtractFail.archive) = true ∧
    (sign_ipa reqValid envExtractFail).fst =
      SignResponse.serverError "Failed to extract bundle id and app name"
        "No .app folder found in Payload" ∧
    publishedArtifacts (sign_ipa reqValid envExtractFail).snd = [] := by
  have h := extraction_failure_conditions reqValid envExtractFail
  have h2 := h.2 (by decide) rfl "No .app folder found in Payload" rfl
  exact ⟨h.1.mpr (Or.inr (Or.inr (Or.inl (by decide)))), h2.1, h2.2⟩

/-- C3: a /sign request missing any of the four fields, or whose uploaded
filenames lack the literal .ipa, .p12 or .mobileprovision suffix, is
answered 400 with a JSON error body and an empty effect trace: no working
directory is created and nothing is written before validation passes. -/
theorem sign_validation_no_side_effects (req : SignRequest) (env : Env)
    (h : getFile req "ipa" = none ∨ getFile req "p12" = none ∨ getFile req "provision" = none
      ∨ req.password = none
      ∨ (∃ i, getFile req "ipa" = some i ∧ pyEndswith i ".ipa" = false)
      ∨ (∃ p, getFile req "p12" = some p ∧ pyEndswith p ".p12" = false)
      ∨ (∃ pr, getFile req "provision" = some pr ∧ pyEndswith pr ".mobileprovision" = false)) :
    ∃ msg, sign_ipa req env = (SignResponse.badRequest msg, []) := by
  have hv : validate req ≠ none := by
    intro hn
    obtain ⟨⟨i, hi, hie⟩, ⟨p, hp, hpe⟩, ⟨pr, hpr, hpres⟩, ⟨pw, hpw, hpwne⟩⟩ :=
      validate_none_sound req hn
    rcases h with h | h | h | h | ⟨x, hx, hxe⟩ | ⟨x, hx, hxe⟩ | ⟨x, hx, hxe⟩ <;> simp_all
  cases hm : validate req with
  | none => exact absurd hm hv
  | some msg => exact ⟨msg, by simp [sign_ipa, hm]⟩

/-- C3 witness: the request lacking the password field is refused with an
empty trace. -/
theorem sign_validation_no_side_effects_witness :
    ∃ msg, sign_ipa reqMissingPassword envOk = (SignResponse.badRequest msg, []) :=
  sign_validation_no_side_effects reqMissingPassword envOk
    (Or.inr (Or.inr (Or.inr (Or.inl rfl))))

/-- C9: a present but empty password field fails the combined truthiness
check of line 192, so the request is answered 400 exactly like a missing
field, with the missing-fields message whenever any file part is present. -/
theorem empty_password_bad_request (req : SignRequest) (env : Env)
    (h : req.password = some "") :
    (∃ msg, sign_ipa req env = (SignResponse.badRequest msg, [])) ∧
    (req.files.isEmpty = false →
      sign_ipa req env =
        (SignResponse.badRequest "Missing one or more required fields", [])) := by
  have hval : validate req =
      (if req.files.isEmpty then some "No files uploaded"
       else some "Missing one or more required fields") := by
    simp [validate, h, strTruthy]
  cases hf : req.files.isEmpty with
  | true =>
    rw [hf, if_pos rfl] at hval
    exact ⟨⟨"No files uploaded", by simp [sign_ipa, hval]⟩, fun hc => by simp at hc⟩
  | false =>
    rw [hf] at hval
    simp only [Bool.false_eq_true, if_false] at hval
    exact ⟨⟨"Missing one or more required fields", by simp [sign_ipa, hval]⟩,
      fun _ => by simp [sign_ipa, hval]⟩

/-- C9 witness: the concrete request with an empty password is refused
with the missing-fields message. -/
theorem empty_password_bad_request_witness :
    sign_ipa reqEmptyPassword envOk =
      (SignResponse.badRequest "Missing one or more required fields", []) :=
  (empty_password_bad_request reqEmptyPassword envOk rfl).2 rfl

/-- C4: when the zsign child process exits nonzero, the handler answers
500 with the Signing failed error and the captured combined output as the
details, and the trace publishes no artifact. -/
theorem sign_zsign_failure (req : SignRequest) (env : Env)
    (bid : Option String) (nm : String) (code : Int) (output : String)
    (hv : validate req = none) (hs : env.saveOk = true)
    (hx : extract_bundle_and_name env.archive = Except.ok (bid, nm))
    (hz : env.zsign = Except.error (code, output)) :
    (sign_ipa req env).fst = SignResponse.serverError "Signing failed" output ∧
    publishedArtifacts (sign_ipa req env).snd = [] := by
  constructor
  · simp [sign_ipa, hv, hs, hx, hz]
  · cases hr : env.rmtreeOk <;>
      simp [sign_ipa, hv, hs, hx, hz, publishedArtifacts, finallyCleanup, hr]

/-- C4 witness: a concrete failing zsign run yields the 500 with its
captured output and publishes nothing. -/
theorem sign_zsign_failure_witness :
    (sign_ipa reqValid envZsignFail).fst =
      SignResponse.serverError "Signing failed" "zsign error output" ∧
    publishedArtifacts (sign_ipa reqValid envZsignFail).snd = [] :=
  sign_zsign_failure reqValid envZsignFail (some "com.example.demo") "Demo" 1
    "zsign error output" (by decide) rfl rfl rfl

/-! ## Properties of the HTTPS rewrite -/

theorem pyReplaceCharsAux_no_occurrence (p0 : Char) (ps rep : List Char) (fuel : Nat)
    (l : List Char) (h : occursIn (p0 :: ps) l = false) :
    pyReplaceCharsAux p0 ps rep fuel l = l := by
  induction fuel generalizing l with
  | zero => rfl
  | succ fuel ih =>
    cases l with
    | nil => rfl
    | cons c rest =>
      simp only [occursIn, Bool.or_eq_false_iff] at h
      simp [pyReplaceCharsAux, h.1, ih rest h.2]

theorem pyReplaceChars_head_match (p0 : Char) (ps rep t : List Char)
    (h : occursIn (p0 :: ps) t = false) :
    pyReplaceChars p0 ps rep ((p0 :: ps) ++ t) = rep ++ t := by
  have hyes : (p0 :: ps).isPrefixOf (p0 :: (ps ++ t)) = true := by simp
  unfold pyReplaceChars
  have hlen : ((p0 :: ps) ++ t).length = (ps ++ t).length + 1 := by simp
  rw [hlen]
  show pyReplaceCharsAux p0 ps rep ((ps ++ t).length + 1) (p0 :: (ps ++ t)) = rep ++ t
  simp only [pyReplaceCharsAux]
  rw [if_pos hyes, List.drop_left]
  rw [pyReplaceCharsAux_no_occurrence p0 ps rep _ t h]

theorem httpsify_of_http (u : String)
    (h1 : pyStartswith u "http://" = true)
    (h2 : occursIn "http://".data (u.data.drop 7) = false) :
    (httpsify u).data = "https://".data ++ u.data.drop 7 := by
  have hyes : "http://".data <+: u.data := by
    have h1a := h1
    unfold pyStartswith at h1a
    simpa using h1a
  obtain ⟨t, ht⟩ := hyes
  have hdrop : u.data.drop 7 = t := by
    rw [← ht]
    exact List.drop_left' (by decide)
  rw [hdrop] at h2 ⊢
  unfold httpsify
  rw [if_pos h1]
  show pyReplaceChars 'h' "ttp://".data "https://".data u.data = "https://".data ++ t
  rw [← ht, show ("http://".data : List Char) = 'h' :: "ttp://".data from by decide]
  rw [show ("http://".data : List Char) = 'h' :: "ttp://".data from by decide] at h2
  exact pyReplaceChars_head_match 'h' "ttp://".data "https://".data t h2

theorem httpsify_not_http (u : String) (h : pyStartswith u "http://" = false) :
    httpsify u = u := by
  unfold httpsify
  rw [if_neg]
  simp [h]

/-- C8: on a successful signing run the three URLs of the response are all
built from the rewritten base URL: the archive and descriptor URLs are the
base followed by download/ and the generated filename, and the
device-installation URL is the fixed itms-services string followed by the
descriptor URL.  The rewrite turns a leading http:// of the inferred base
URL into https:// (str.replace applied under a startswith guard; with no
second occurrence of the scheme text the effect is exactly the prefix
substitution), and leaves any other base URL unchanged. -/
theorem sign_success_urls (req : SignRequest) (env : Env)
    (bid : Option String) (nm : String) (zout : String)
    (hv : validate req = none) (hs : env.saveOk = true)
    (hx : extract_bundle_and_name env.archive = Except.ok (bid, nm))
    (hz : env.zsign = Except.ok zout) (hc : env.copyOk = true) :
    (sign_ipa req env).fst = SignResponse.success
        ("itms-services://?action=download-manifest&url=" ++
          (httpsify req.url_root ++ "download/" ++
            ("manifest_" ++ pyStr bid ++ "_" ++ toString env.time2 ++ ".plist")))
        (httpsify req.url_root ++ "download/" ++
          ("manifest_" ++ pyStr bid ++ "_" ++ toString env.time2 ++ ".plist"))
        (httpsify req.url_root ++ "download/" ++
          ("signed_" ++ pyStr bid ++ "_" ++ toString env.time1 ++ ".ipa"))
        nm bid env.sizeMB ∧
    (pyStartswith req.url_root "http://" = true →
      occursIn "http://".data (req.url_root.data.drop 7) = false →
      (httpsify req.url_root).data = "https://".data ++ req.url_root.data.drop 7) ∧
    (pyStartswith req.url_root "http://" = false →
      httpsify req.url_root = req.url_root) := by
  refine ⟨?_, fun a b => httpsify_of_http req.url_root a b,
    fun a => httpsify_not_http req.url_root a⟩
  simp [sign_ipa, hv, hs, hx, hz, hc]

/-- C8 witness: the concrete successful run over the http base URL yields
the https URLs. -/
theorem sign_success_urls_witness :
    (sign_ipa reqValid envOk).fst = SignResponse.success
        ("itms-services://?action=download-manifest&url=" ++
          (httpsify reqValid.url_root ++ "download/" ++
            ("manifest_" ++ pyStr (some "com.example.demo") ++ "_" ++
              toString envOk.time2 ++ ".plist")))
        (httpsify reqValid.url_root ++ "download/" ++
          ("manifest_" ++ pyStr (some "com.example.demo") ++ "_" ++
            toString envOk.time2 ++ ".plist"))
        (httpsify reqValid.url_root ++ "download/" ++
          ("signed_" ++ pyStr (some "com.example.demo") ++ "_" ++
            toString envOk.time1 ++ ".ipa"))
        "Demo" (some "com.example.demo") 12 ∧
    (httpsify reqValid.url_root).data = "https://".data ++ reqValid.url_root.data.drop 7 := by
  have h := sign_success_urls reqValid envOk (some "com.example.demo") "Demo" "signed ok"
    (by decide) rfl rfl rfl rfl
  exact ⟨h.1, h.2.1 (by decide) (by decide)⟩

/-! ## Cleanup lemmas for the working directory -/

theorem sign_response_rmtree_independent (req : SignRequest) (env : Env) (b : Bool) :
    (sign_ipa req (envWithRmtree env b)).fst = (sign_ipa req env).fst := by
  cases hm : validate req with
  | some msg => simp [sign_ipa, hm, envWithRmtree]
  | none =>
    cases hs : env.saveOk with
    | false => simp [sign_ipa, hm, hs, envWithRmtree]
    | true =>
      cases hx : extract_bundle_and_name env.archive with
      | error e => simp [sign_ipa, hm, hs, hx, envWithRmtree]
      | ok pr =>
        obtain ⟨bid, nm⟩ := pr
        cases hz : env.zsign with
        | error ec => simp [sign_ipa, hm, hs, hx, hz, envWithRmtree]
        | ok z =>
          cases hc : env.copyOk with
          | false => simp [sign_ipa, hm, hs, hx, hz, hc, envWithRmtree]
          | true => simp [sign_ipa, hm, hs, hx, hz, hc, envWithRmtree]

theorem sign_trace_cleanup (req : SignRequest) (env : Env) :
    ((∃ p, Effect.mkdtemp p ∈ (sign_ipa req env).snd) →
      Effect.rmtree env.tmpdir env.rmtreeOk ∈ (sign_ipa req env).snd) ∧
    (env.rmtreeOk = false → (∃ p, Effect.mkdtemp p ∈ (sign_ipa req env).snd) →
      Effect.logCleanupFailure ∈ (sign_ipa req env).snd) := by
  cases hm : validate req with
  | some msg =>
    constructor
    · rintro ⟨p, hp⟩
      simp [sign_ipa, hm] at hp
    · rintro hr ⟨p, hp⟩
      simp [sign_ipa, hm] at hp
  | none =>
    cases hr : env.rmtreeOk with
    | true =>
      refine ⟨fun _ => ?_, fun hcontra => by simp at hcontra⟩
      cases hs : env.saveOk with
      | false => simp [sign_ipa, hm, hs, finallyCleanup, hr]
      | true =>
        cases hx : extract_bundle_and_name env.archive with
        | error e => simp [sign_ipa, hm, hs, hx, finallyCleanup, hr]
        | ok pr =>
          obtain ⟨bid, nm⟩ := pr
          cases hz : env.zsign with
          | error ec => simp [sign_ipa, hm, hs, hx, hz, finallyCleanup, hr]
          | ok z =>
            cases hc : env.copyOk with
            | false => simp [sign_ipa, hm, hs, hx, hz, hc, finallyCleanup, hr]
            | true => simp [sign_ipa, hm, hs, hx, hz, hc, finallyCleanup, hr]
    | false =>
      have hboth : Effect.rmtree env.tmpdir false ∈ (sign_ipa req env).snd ∧
          Effect.logCleanupFailure ∈ (sign_ipa req env).snd := by
        cases hs : env.saveOk with
        | false => simp [sign_ipa, hm, hs, finallyCleanup, hr]
        | true =>
          cases hx : extract_bundle_and_name env.archive with
          | error e => simp [sign_ipa, hm, hs, hx, finallyCleanup, hr]
          | ok pr =>
            obtain ⟨bid, nm⟩ := pr
            cases hz : env.zsign with
            | error ec => simp [sign_ipa, hm, hs, hx, hz, finallyCleanup, hr]
            | ok z =>
              cases hc : env.copyOk with
              | false => simp [sign_ipa, hm, hs, hx, hz, hc, finallyCleanup, hr]
              | true => simp [sign_ipa, hm, hs, hx, hz, hc, finallyCleanup, hr]
      exact ⟨fun _ => hr ▸ hboth.1, fun _ _ => hboth.2⟩

/-- C6: the working directory is released on every exit path and cleanup
failures never change the response.  First conjunct: the response is
identical whether rmtree succeeds or fails.  Second: every trace that
creates the working directory also records an rmtree attempt on it.
Third: when rmtree fails, the failure is logged. -/
theorem workdir_cleanup_every_path (req : SignRequest) (env : Env) :
    ((sign_ipa req (envWithRmtree env true)).fst =
      (sign_ipa req (envWithRmtree env false)).fst) ∧
    ((∃ p, Effect.mkdtemp p ∈ (sign_ipa req env).snd) →
      Effect.rmtree env.tmpdir env.rmtreeOk ∈ (sign_ipa req env).snd) ∧
    (env.rmtreeOk = false → (∃ p, Effect.mkdtemp p ∈ (sign_ipa req env).snd) →
      Effect.logCleanupFailure ∈ (sign_ipa req env).snd) :=
  ⟨(sign_response_rmtree_independent req env true).trans
      (sign_response_rmtree_independent req env false).symm,
    (sign_trace_cleanup req env).1, (sign_trace_cleanup req env).2⟩

/-- C6 witness: at a concrete run whose cleanup fails, the rmtree attempt
and the warning are in the trace and the response is the rmtree-independent
one. -/
theorem workdir_cleanup_every_path_witness :
    (sign_ipa reqValid (envWithRmtree envRmtreeFail true)).fst =
      (sign_ipa reqValid (envWithRmtree envRmtreeFail false)).fst ∧
    Effect.rmtree envRmtreeFail.tmpdir envRmtreeFail.rmtreeOk ∈
      (sign_ipa reqValid envRmtreeFail).snd ∧
    Effect.logCleanupFailure ∈ (sign_ipa reqValid envRmtreeFail).snd := by
  have h := workdir_cleanup_every_path reqValid envRmtreeFail
  exact ⟨h.1, h.2.1 ⟨"/tmp/ios_signer_w", by decide⟩,
    h.2.2 rfl ⟨"/tmp/ios_signer_w", by decide⟩⟩

end ISignReal
